import Mathlib

/-!
Shallow embedding of the AI-PPT chart-generation tools
(`generate_chart.py`, `generate_big_numbers.py`, `generate_timeline.py`).

Layout geometry is modelled in exact rational arithmetic (`ℚ`); Python
machine floats introduce only rounding, not structural differences, on the
formulas below.  Angles are carried in degrees (the source uses radians via
`2 * np.pi`; `360` stands for `2π`).
-/

namespace AIPPT

/-- Error taxonomy of the spec's `DataError`:
`MalformedRecord` models the `ValueError` raised by the two-variable
unpacking `cat, val = item.split(':')` when a record does not have exactly
two colon-separated fields, `NotNumeric` the `ValueError` raised by
`float(...)` on a non-numeric field. -/
inductive DataError where
  | MalformedRecord
  | NotNumeric
deriving DecidableEq

instance {ε α : Type} [DecidableEq ε] [DecidableEq α] :
    DecidableEq (Except ε α) := fun a b =>
  match a, b with
  | .error e, .error f =>
    if h : e = f then .isTrue (by rw [h]) else .isFalse (by simp [h])
  | .ok x, .ok y =>
    if h : x = y then .isTrue (by rw [h]) else .isFalse (by simp [h])
  | .error _, .ok _ => .isFalse (by simp)
  | .ok _, .error _ => .isFalse (by simp)

/-- Split a character list at every occurrence of `sep`: the semantics of
Python's `str.split(sep)` for a one-character separator (splitting the
empty string yields `[""]`, adjacent separators yield empty fields). -/
def splitOnChar (sep : Char) : List Char → List (List Char)
  | [] => [[]]
  | c :: cs =>
    match splitOnChar sep cs with
    | [] => [[]]
    | g :: gs => if c = sep then [] :: g :: gs else (c :: g) :: gs

/-- Python's `s.split(sep)` on strings, one-character separator. -/
def pySplit (sep : Char) (s : String) : List String :=
  (splitOnChar sep s.data).map String.mk

/-- Whitespace stripped by Python's `str.strip()`. -/
def isSpaceChar (c : Char) : Bool :=
  c = ' ' || c = '\t' || c = '\n' || c = '\x0b' || c = '\x0c' || c = '\r'

/-- Python's `s.strip()`. -/
def pyStrip (s : String) : String :=
  String.mk (((s.data.dropWhile isSpaceChar).reverse.dropWhile isSpaceChar).reverse)

/-- Fold a digit list into a natural number (helper for `parseFloat?`). -/
def digitsVal (cs : List Char) : ℕ :=
  cs.foldl (fun a c => 10 * a + (c.toNat - 48)) 0

/-- Unsigned part of Python's `float(...)`: digits with an optional decimal
point (`"10"`, `"1.5"`, `"1."`, `".5"`); anything else is rejected. -/
def parseUnsigned? (cs : List Char) : Option ℚ :=
  match splitOnChar '.' cs with
  | [w] =>
    if w ≠ [] ∧ w.all Char.isDigit then some (digitsVal w) else none
  | [w, f] =>
    if (w ≠ [] ∨ f ≠ []) ∧ w.all Char.isDigit ∧ f.all Char.isDigit then
      some ((digitsVal w : ℚ) + (digitsVal f : ℚ) / 10 ^ f.length)
    else none
  | _ => none

/-- Model of Python's builtin `float(s)` on the decimal grammar the tools'
input language uses: optional leading sign, digits, optional fractional
part.  (Exponent/`inf`/`nan` spellings are outside the data grammar and are
not modelled.)  Returns `none` where `float` raises `ValueError`. -/
def parseFloat? (s : String) : Option ℚ :=
  match s.data with
  | '+' :: rest => parseUnsigned? rest
  | '-' :: rest => (parseUnsigned? rest).map Neg.neg
  | cs => parseUnsigned? cs

/-- Sequence a fallible map over a list, stopping at the first error —
exactly the behaviour of a Python `for` loop whose body may raise. -/
def mapExcept (f : α → Except ε β) : List α → Except ε (List β)
  | [] => .ok []
  | a :: as =>
    match f a with
    | .error e => .error e
    | .ok b =>
      match mapExcept f as with
      | .error e => .error e
      | .ok bs => .ok (b :: bs)

/-- One record of pair mode (`generate_chart.py`, `parse_data`, format 1):
`cat, val = item.split(':')` followed by `float(val.strip())`; the unpack
raises unless the record has exactly two colon-separated fields. -/
def parsePairItem (item : String) : Except DataError (String × ℚ) :=
  match pySplit ':' item with
  | [cat, val] =>
    match parseFloat? (pyStrip val) with
    | some v => .ok (pyStrip cat, v)
    | none => .error .NotNumeric
  | _ => .error .MalformedRecord

/-- One record of bare-number mode (`parse_data`, format 2):
`float(x.strip())`. -/
def parseBareItem (x : String) : Except DataError ℚ :=
  match parseFloat? (pyStrip x) with
  | some v => .ok v
  | none => .error .NotNumeric

/-- `parse_data` of `generate_chart.py` (lines 98-118).  If the raw string
contains a colon, every comma-separated record is split as
`label:value`; otherwise the records are bare numbers auto-labelled
`项目{i+1}` (1-based).  Python raises out of the loop at the first bad
record; here the whole call returns that first error. -/
def parse_data (s : String) : Except DataError (List String × List ℚ) :=
  if s.data.contains ':' then
    match mapExcept parsePairItem (pySplit ',' s) with
    | .error e => .error e
    | .ok pairs => .ok (pairs.map Prod.fst, pairs.map Prod.snd)
  else
    match mapExcept parseBareItem (pySplit ',' s) with
    | .error e => .error e
    | .ok values =>
      .ok ((List.range values.length).map (fun i => "项目" ++ toString (i + 1)),
           values)

/-- A big-number metric record: `{'number': …, 'title': …, 'description': …}`
of `parse_metrics_data`. -/
structure Metric where
  number : String
  title : String
  description : String
deriving DecidableEq

/-- `parse_metrics_data` of `generate_big_numbers.py` (lines 83-101): each
comma-separated record is colon-split; records with fewer than three fields
are silently skipped (`if len(parts) >= 3`), extra fields are ignored.
The function is total: it never raises. -/
def parse_metrics_data (s : String) : List Metric :=
  (pySplit ',' s).filterMap fun item =>
    match pySplit ':' item with
    | p0 :: p1 :: p2 :: _ => some ⟨pyStrip p0, pyStrip p1, pyStrip p2⟩
    | _ => none

/-- A timeline record: `{'time': …, 'title': …, 'description': …}` of
`parse_timeline_data` in `generate_timeline.py` (lines 69-87, same
skip-short-records shape as `parse_metrics_data`). -/
structure TimelineItem where
  time : String
  title : String
  description : String
deriving DecidableEq

/-- `parse_timeline_data` of `generate_timeline.py` (lines 69-87). -/
def parse_timeline_data (s : String) : List TimelineItem :=
  (pySplit ',' s).filterMap fun item =>
    match pySplit ':' item with
    | p0 :: p1 :: p2 :: _ => some ⟨pyStrip p0, pyStrip p1, pyStrip p2⟩
    | _ => none

/-- A scheme entry of the `COLOR_SCHEMES` dicts in `generate_chart.py` and
`generate_big_numbers.py`.  `accent2`/`accent3` are `none` for the keys
whose dict literal omits them. -/
structure ColorScheme where
  name : String
  gradient : List String
  primary : String
  accent : String
  accent2 : Option String
  accent3 : Option String
  text : String
  textLight : String
  background : String
deriving DecidableEq

/-- A scheme entry of the `COLOR_SCHEMES` dict in `generate_timeline.py`
(fields `name`, `colors`, `text`, `text_light`). -/
structure TimelineScheme where
  name : String
  colors : List String
  text : String
  textLight : String
deriving DecidableEq

/-- `COLOR_SCHEMES` of `generate_chart.py` (lines 19-68), keyed lookup. -/
def chartSchemes : String → Option ColorScheme
  | "blue" => some
    { name := "科技蓝"
      gradient := ["#4A90E2", "#5B7FCE", "#6D6FBB", "#7E5FA8"]
      primary := "#4A90E2", accent := "#FF6B6B"
      accent2 := none, accent3 := none
      text := "#2C3E50", textLight := "#7F8C8D", background := "#ECF0F1" }
  | "orange" => some
    { name := "商务橙"
      gradient := ["#FF9500", "#FFA733", "#FFB966", "#FFCB99"]
      primary := "#FF9500", accent := "#4ECDC4"
      accent2 := none, accent3 := none
      text := "#34495E", textLight := "#95A5A6", background := "#F7F9FA" }
  | "green" => some
    { name := "专业绿"
      gradient := ["#00D084", "#33D99A", "#66E2B0", "#99EBC6"]
      primary := "#00D084", accent := "#FDCB6E"
      accent2 := none, accent3 := none
      text := "#2D3436", textLight := "#636E72", background := "#DFE6E9" }
  | "gold_blue" => some
    { name := "高端金蓝"
      gradient := ["#1E3A5F", "#2C5282", "#3A6FA5"]
      primary := "#2C5282", accent := "#D4AF37"
      accent2 := some "#F4E4C1", accent3 := none
      text := "#2D3436", textLight := "#636E72", background := "#F5F6FA" }
  | "multilayer" => some
    { name := "多层次专业"
      gradient := ["#2C5282", "#3A6FA5", "#5A8FC4"]
      primary := "#2C5282", accent := "#FF9500"
      accent2 := some "#D4AF37", accent3 := some "#8B4513"
      text := "#2D3436", textLight := "#636E72", background := "#F5F6FA" }
  | _ => none

/-- `COLOR_SCHEMES` of `generate_big_numbers.py` (lines 18-64), keyed
lookup. -/
def bigNumberSchemes : String → Option ColorScheme
  | "blue" => some
    { name := "科技蓝"
      gradient := ["#4A90E2", "#5B7FCE", "#6D6FBB", "#7E5FA8"]
      primary := "#4A90E2", accent := "#FF6B6B"
      accent2 := none, accent3 := none
      text := "#2C3E50", textLight := "#7F8C8D", background := "#ECF0F1" }
  | "gold_blue" => some
    { name := "高端金蓝"
      gradient := ["#2C5282", "#D4AF37", "#3A6FA5", "#F4E4C1"]
      primary := "#2C5282", accent := "#D4AF37"
      accent2 := none, accent3 := none
      text := "#2D3436", textLight := "#636E72", background := "#F5F6FA" }
  | "multilayer" => some
    { name := "多层次专业"
      gradient := ["#2C5282", "#FF9500", "#D4AF37", "#8B4513"]
      primary := "#2C5282", accent := "#FF9500"
      accent2 := none, accent3 := none
      text := "#2D3436", textLight := "#636E72", background := "#F5F6FA" }
  | "orange" => some
    { name := "商务橙"
      gradient := ["#FF9500", "#FFA733", "#FFB966", "#FFCB99"]
      primary := "#FF9500", accent := "#4ECDC4"
      accent2 := none, accent3 := none
      text := "#34495E", textLight := "#95A5A6", background := "#F7F9FA" }
  | "green" => some
    { name := "专业绿"
      gradient := ["#00D084", "#33D99A", "#66E2B0", "#99EBC6"]
      primary := "#00D084", accent := "#FDCB6E"
      accent2 := none, accent3 := none
      text := "#2D3436", textLight := "#636E72", background := "#DFE6E9" }
  | _ => none

/-- `COLOR_SCHEMES` of `generate_timeline.py` (lines 19-50), keyed lookup. -/
def timelineSchemes : String → Option TimelineScheme
  | "blue" => some
    { name := "科技蓝"
      colors := ["#4A90E2", "#5B7FCE", "#6D6FBB", "#7E5FA8"]
      text := "#2C3E50", textLight := "#7F8C8D" }
  | "gold_blue" => some
    { name := "高端金蓝"
      colors := ["#2C5282", "#D4AF37", "#3A6FA5", "#8B4513"]
      text := "#2D3436", textLight := "#636E72" }
  | "multilayer" => some
    { name := "多层次专业"
      colors := ["#2C5282", "#FF9500", "#D4AF37", "#5A8FC4"]
      text := "#2D3436", textLight := "#636E72" }
  | "orange" => some
    { name := "商务橙"
      colors := ["#FF9500", "#FFA733", "#FFB966", "#FFCB99"]
      text := "#34495E", textLight := "#95A5A6" }
  | "green" => some
    { name := "专业绿"
      colors := ["#00D084", "#33D99A", "#66E2B0", "#99EBC6"]
      text := "#2D3436", textLight := "#636E72" }
  | _ => none

/-- The five scheme keys shared by all three tools. -/
def schemeKeys : List String :=
  ["blue", "orange", "green", "gold_blue", "multilayer"]

/-! ## Pie / donut layout (`generate_pie_chart`, `generate_donut_chart`) -/

/-- Python's `max(values)` (raises on `[]`; the `0` default is never used by
the callers, which require a non-empty dataset). -/
def pyMax (l : List ℚ) : ℚ := l.max?.getD 0

/-- The `explode` list of `generate_pie_chart` (line 188) and
`generate_donut_chart` (line 222):
`[0.05 if v == max(values) else 0 for v in values]`. -/
def explodeList (values : List ℚ) : List ℚ :=
  values.map fun v => if v = pyMax values then 5 / 100 else 0

/-- Arc sweep of wedge `i`, in degrees.  Modelled from the documented
contract of matplotlib's `Axes.pie` as invoked at `generate_chart.py`
lines 191-194 and 225-228: each wedge spans the fraction
`values[i] / sum(values)` of the full circle, in input order. -/
def pieSweeps (values : List ℚ) : List ℚ :=
  values.map fun v => 360 * v / values.sum

/-- Start angle of wedge `i`, in degrees from the positive x-axis.
Modelled from the same `Axes.pie` contract with `startangle=90`: wedges
are laid out consecutively from 90°, each starting where the previous one
ends. -/
def pieStartAngle (values : List ℚ) (i : ℕ) : ℚ :=
  90 + 360 * (values.take i).sum / values.sum

/-- Center label of the donut chart: `total = sum(values)`
(`generate_donut_chart`, line 241). -/
def donutTotal (values : List ℚ) : ℚ := values.sum

/-! ## Radar layout (`generate_radar_chart`) -/

/-- `np.linspace(0, 2*np.pi, n, endpoint=False)` of `generate_radar_chart`
(line 260), carried in degrees: angle `i` is `360 * i / n`. -/
def radarAngles (n : ℕ) : List ℚ :=
  (List.range n).map fun i : ℕ => 360 * (i : ℚ) / (n : ℚ)

/-- `angles += angles[:1]` (line 262): the closing angle list appends the
first angle verbatim. -/
def radarClosedAngles (n : ℕ) : List ℚ :=
  radarAngles n ++ (radarAngles n).take 1

/-- `values_plot = values + [values[0]]` (line 261); `take 1` is `[values[0]]`
for the non-empty lists the tool feeds it. -/
def radarClosedValues (values : List ℚ) : List ℚ :=
  values ++ values.take 1

/-! ## Waterfall layout (`generate_waterfall_chart`) -/

/-- Running-total helper: Python's
`for v in values[:-1]: cumulative.append(cumulative[-1] + v)`. -/
def cumAux (last : ℚ) : List ℚ → List ℚ
  | [] => []
  | v :: vs => (last + v) :: cumAux (last + v) vs

/-- The `cumulative` list of `generate_waterfall_chart` (lines 297-299):
starts at `[0]`, then appends the running sum over all but the last
value; `cumulative[i]` is the sum of `values[0..i-1]`. -/
def cumulative (values : List ℚ) : List ℚ :=
  0 :: cumAux 0 values.dropLast

/-- One bar of the waterfall layout: x-index, bottom, and signed height as
passed to `ax.bar(i, val, bottom=…)`. -/
structure Bar where
  x : ℕ
  bottom : ℚ
  height : ℚ
deriving DecidableEq

/-- The bars of `generate_waterfall_chart` (lines 312-318): bar `i` is drawn
from `cumulative[i]` with signed extent `values[i]`, except the last bar,
which is drawn from 0 (`bottom=0`) to its own value.  The Python loop runs
over `enumerate(zip(categories, values, cumulative))`, all of length
`values.length`. -/
def waterfallBars (values : List ℚ) : List Bar :=
  (List.range values.length).map fun i =>
    if i = values.length - 1 then ⟨i, 0, values.getD i 0⟩
    else ⟨i, (cumulative values).getD i 0, values.getD i 0⟩

/-- Connector y-levels of `generate_waterfall_chart` (lines 321-323): for
`i in range(len(categories) - 2)` a dashed line is drawn at height
`cumulative[i+1]` between bars `i` and `i+1`; nothing is drawn before the
final absolute bar. -/
def waterfallConnectors (values : List ℚ) : List ℚ :=
  (List.range (values.length - 2)).map fun i =>
    (cumulative values).getD (i + 1) 0

/-! ## Big-number card grid (`generate_big_number_cards`) -/

/-- Grid packing of `generate_big_number_cards` (lines 106-120) as
`(cols, rows)`: `n ≤ 2` → one row of `n`; `n ≤ 4` → 2×2; else 3 columns and
`(n + 2) // 3` rows. -/
def gridDims (n : ℕ) : ℕ × ℕ :=
  if n ≤ 2 then (n, 1)
  else if n ≤ 4 then (2, 2)
  else (3, (n + 2) / 3)

/-- One grid cell of the big-number layout: `hidden` cells (index ≥ n) get
only `ax.axis('off')` and no card patch (lines 176-178); visible cells get
the alternating card color. -/
structure Card where
  index : ℕ
  hidden : Bool
  color : Option String
deriving DecidableEq

/-- `colors = [scheme['primary'], scheme['accent']]; color = colors[i % 2]`
(lines 136, 144). -/
def cardColor (scheme : ColorScheme) (i : ℕ) : String :=
  [scheme.primary, scheme.accent].getD (i % 2) scheme.primary

/-- The full cell list of `generate_big_number_cards`: `rows * cols` axes
are allocated; the first `n` carry cards colored by flat index, the rest
are hidden. -/
def bigNumberCards (n : ℕ) (scheme : ColorScheme) : List Card :=
  (List.range ((gridDims n).2 * (gridDims n).1)).map fun i =>
    if i < n then ⟨i, false, some (cardColor scheme i)⟩
    else ⟨i, true, none⟩

/-! ## Timeline layout (`generate_horizontal_timeline`) -/

/-- `np.linspace(a, b, n)` (endpoint included): `n` evenly spaced values
from `a` to `b`; `[a]` for `n = 1`, `[]` for `n = 0`. -/
def linspace (a b : ℚ) (n : ℕ) : List ℚ :=
  if n = 1 then [a]
  else (List.range n).map fun i : ℕ => a + (b - a) * (i : ℚ) / ((n : ℚ) - 1)

/-- One drawn timeline node: x-position on the axis line, node color, and
the record it displays. -/
structure TimelineNode where
  x : ℚ
  color : String
  item : TimelineItem
deriving DecidableEq

/-- The drawn nodes of `generate_horizontal_timeline` (lines 105-128):
`x_positions = np.linspace(1.5, 8.5, n)`, `colors = scheme['colors'][:n]`,
then `zip(x_positions, timeline, colors)` — the zip truncates to the
shortest list, so when the palette has fewer than `n` colors the trailing
records are not drawn at all. -/
def timelineNodes (timeline : List TimelineItem) (scheme : TimelineScheme) :
    List TimelineNode :=
  let n := timeline.length
  let xs := linspace (3 / 2) (17 / 2) n
  let colors := scheme.colors.take n
  (xs.zip (timeline.zip colors)).map fun p => ⟨p.1, p.2.2, p.2.1⟩

/-- `card_width = (8.5 - 1.5) / n - 0.2` (line 132). -/
def timelineCardWidth (n : ℕ) : ℚ :=
  (17 / 2 - 3 / 2) / n - 1 / 5

/-! ## Helper lemmas -/

theorem mapExcept_ok_iff {α β ε : Type} {f : α → Except ε β} :
    ∀ {l : List α} {bs : List β},
      mapExcept f l = .ok bs ↔ List.Forall₂ (fun a b => f a = .ok b) l bs := by
  intro l
  induction l with
  | nil =>
    intro bs
    constructor
    · intro h
      cases hb : bs with
      | nil => exact List.Forall₂.nil
      | cons b bs2 => rw [hb] at h; simp [mapExcept] at h
    · intro h
      cases h
      rfl
  | cons a as ih =>
    intro bs
    constructor
    · intro h
      simp only [mapExcept] at h
      cases hf : f a with
      | error e => rw [hf] at h; exact absurd h (by simp)
      | ok b =>
        rw [hf] at h
        cases hm : mapExcept f as with
        | error e => rw [hm] at h; exact absurd h (by simp)
        | ok bs2 =>
          rw [hm] at h
          cases h
          exact List.Forall₂.cons hf (ih.mp hm)
    · intro h
      cases h with
      | cons hab htail =>
        simp only [mapExcept, hab, ih.mpr htail]

theorem mapExcept_ok_length {α β ε : Type} {f : α → Except ε β}
    {l : List α} {bs : List β} (h : mapExcept f l = .ok bs) :
    bs.length = l.length :=
  (List.Forall₂.length_eq (mapExcept_ok_iff.mp h)).symm

theorem mapExcept_error_of_mem {α β ε : Type} {f : α → Except ε β}
    {l : List α} {a : α} (ha : a ∈ l) (hf : ∀ b, f a ≠ .ok b) :
    ∃ e, mapExcept f l = .error e := by
  induction l with
  | nil => cases ha
  | cons x xs ih =>
    simp only [mapExcept]
    cases hx : f x with
    | error e => exact ⟨e, rfl⟩
    | ok b =>
      rcases List.mem_cons.mp ha with h | h
      · exact absurd (h ▸ hx) (hf b)
      · obtain ⟨e, he⟩ := ih h
        exact ⟨e, by rw [he]⟩

theorem mapExcept_ok_of_forall {α β ε : Type} {f : α → Except ε β}
    {l : List α} (h : ∀ a ∈ l, ∃ b, f a = .ok b) :
    ∃ bs, mapExcept f l = .ok bs := by
  induction l with
  | nil => exact ⟨[], rfl⟩
  | cons x xs ih =>
    obtain ⟨b, hb⟩ := h x (List.mem_cons_self x xs)
    obtain ⟨bs, hbs⟩ := ih fun a ha => h a (List.mem_cons_of_mem x ha)
    exact ⟨b :: bs, by simp only [mapExcept, hb, hbs]⟩

theorem cumAux_length (last : ℚ) (vs : List ℚ) :
    (cumAux last vs).length = vs.length := by
  induction vs generalizing last with
  | nil => rfl
  | cons v vs ih => simp [cumAux, ih]

theorem cumAux_getD (last : ℚ) (vs : List ℚ) (i : ℕ) (hi : i < vs.length) :
    (cumAux last vs).getD i 0 = last + (vs.take (i + 1)).sum := by
  induction vs generalizing last i with
  | nil => cases hi
  | cons v vs ih =>
    cases i with
    | zero => simp [cumAux]
    | succ j =>
      have hj : j < vs.length := by simpa using Nat.lt_of_succ_lt_succ hi
      simp only [cumAux, List.getD_cons_succ, ih (last + v) j hj,
        List.take_succ_cons, List.sum_cons]
      ring

theorem cumulative_length (values : List ℚ) :
    (cumulative values).length = values.dropLast.length + 1 := by
  simp [cumulative, cumAux_length]

theorem cumulative_getD (values : List ℚ) (i : ℕ) (hi : i < values.length) :
    (cumulative values).getD i 0 = (values.take i).sum := by
  cases i with
  | zero => simp [cumulative]
  | succ j =>
    have hj : j < values.dropLast.length := by
      have hd := List.length_dropLast values
      omega
    have h1 : (cumulative values).getD (j + 1) 0
        = (values.dropLast.take (j + 1)).sum := by
      simp only [cumulative, List.getD_cons_succ, cumAux_getD 0 _ j hj,
        zero_add]
    rw [h1, List.dropLast_eq_take, List.take_take]
    have hmin : min (j + 1) (values.length - 1) = j + 1 := by omega
    rw [hmin]

theorem pyMax_mem {l : List ℚ} (h : l ≠ []) : pyMax l ∈ l := by
  unfold pyMax
  cases hm : l.max? with
  | none => exact absurd (List.max?_eq_none_iff.mp hm) h
  | some m =>
    have := List.max?_mem (fun a b : ℚ => max_choice a b) hm
    simpa using this

theorem le_pyMax {l : List ℚ} {a : ℚ} (ha : a ∈ l) : a ≤ pyMax l := by
  unfold pyMax
  cases hm : l.max? with
  | none => exact absurd (List.max?_eq_none_iff.mp hm) (List.ne_nil_of_mem ha)
  | some m =>
    have hle := (List.max?_le_iff (fun _ _ _ => max_le_iff) hm).mp (le_refl m)
    simpa using hle a ha

theorem getD_map_range {β : Type} (n i : ℕ) (f : ℕ → β) (d : β)
    (hi : i < n) : ((List.range n).map f).getD i d = f i := by
  rw [List.getD_eq_getElem?_getD, List.getElem?_map,
    List.getElem?_range hi]
  rfl

theorem getD_map_in {α β : Type} (f : α → β) (l : List α) (i : ℕ)
    (hi : i < l.length) (d : α) (d2 : β) :
    (l.map f).getD i d2 = f (l.getD i d) := by
  rw [List.getD_eq_getElem?_getD, List.getElem?_map,
    List.getElem?_eq_getElem hi, List.getD_eq_getElem?_getD,
    List.getElem?_eq_getElem hi]
  rfl

theorem mapExcept_ok_forall_mem {α β ε : Type} {f : α → Except ε β}
    {l : List α} {bs : List β} (h : mapExcept f l = .ok bs) :
    ∀ a ∈ l, ∃ b, f a = .ok b := by
  intro a ha
  have hf := mapExcept_ok_iff.mp h
  have hlen := hf.length_eq
  obtain ⟨⟨i, hi⟩, rfl⟩ := List.mem_iff_get.mp ha
  exact ⟨bs.get ⟨i, by omega⟩, (List.forall₂_iff_get.mp hf).2 i hi (by omega)⟩

/-! ## Claims -/

/-- C4: for a waterfall dataset of length `n ≥ 2`, bar 0 is drawn from 0
with height `values[0]`; every intermediate bar `i` starts at the running
sum of `values[0..i-1]` and extends by the signed `values[i]`; the final
bar is always drawn absolutely from 0 to `values[n-1]`; and exactly the
connector levels `cumulative[1..n-2]` are drawn — one between each pair of
consecutive bars except immediately before the final absolute bar. -/
theorem C4_waterfall_layout (values : List ℚ) (h2 : 2 ≤ values.length) :
    (waterfallBars values).length = values.length ∧
    (waterfallBars values).getD 0 ⟨0, 0, 0⟩ = ⟨0, 0, values.getD 0 0⟩ ∧
    (∀ i, 0 < i → i < values.length - 1 →
      (waterfallBars values).getD i ⟨0, 0, 0⟩ =
        ⟨i, (values.take i).sum, values.getD i 0⟩) ∧
    (waterfallBars values).getD (values.length - 1) ⟨0, 0, 0⟩ =
      ⟨values.length - 1, 0, values.getD (values.length - 1) 0⟩ ∧
    (waterfallConnectors values).length = values.length - 2 ∧
    (∀ i, i < values.length - 2 →
      (waterfallConnectors values).getD i 0 = (values.take (i + 1)).sum) := by
  refine ⟨by simp [waterfallBars], ?_, ?_, ?_, by simp [waterfallConnectors], ?_⟩
  · rw [waterfallBars, getD_map_range _ _ _ _ (by omega)]
    rw [if_neg (by omega), cumulative_getD _ _ (by omega)]
    simp
  · intro i h0 hlt
    rw [waterfallBars, getD_map_range _ _ _ _ (by omega)]
    rw [if_neg (by omega), cumulative_getD _ _ (by omega)]
  · rw [waterfallBars, getD_map_range _ _ _ _ (by omega)]
    rw [if_pos rfl]
  · intro i hlt
    rw [waterfallConnectors, getD_map_range _ _ _ _ (by omega)]
    rw [cumulative_getD _ _ (by omega)]

/-- C4 witness: on the spec's divergence example `"Base:100,Growth:+35,Total:200"`
(values `[100, 35, 200]`), the final bar is drawn from 0 to 200 — not to
the cumulative `135` — and the single connector sits at level 100. -/
theorem C4_waterfall_layout_witness :
    parse_data "Base:100,Growth:+35,Total:200" =
      .ok (["Base", "Growth", "Total"], [100, 35, 200]) ∧
    (waterfallBars [100, 35, 200]).getD 2 ⟨0, 0, 0⟩ = ⟨2, 0, 200⟩ ∧
    (waterfallConnectors [100, 35, 200]).length = 1 := by
  have h := C4_waterfall_layout [100, 35, 200] (by decide)
  refine ⟨by decide, ?_, ?_⟩
  · have h4 := h.2.2.2.1
    simpa using h4
  · simpa using h.2.2.2.2.1

/-- C2 counterexample: with the tied dataset `[5, 5]` both records are
flagged exploded (`[0.05, 0.05]`), not only the first occurrence
(`[0.05, 0]`) as the claim states. -/
theorem C2_explode_counterexample :
    explodeList [5, 5] = [5 / 100, 5 / 100] ∧
    explodeList [5, 5] ≠ [5 / 100, 0] := by
  have hmax : pyMax [5, 5] = 5 := by decide
  constructor
  · simp [explodeList, hmax]
  · simp [explodeList, hmax]

/-- C2 (amended): in the pie/donut layout, every record whose value equals
the maximum is flagged exploded with offset 0.05 — all tied occurrences
alike, not only the first — and every other record gets offset 0; at least
one record (one attaining the maximum) is flagged. -/
theorem C2_explode_max (values : List ℚ) (h : values ≠ []) :
    (∀ i : Fin values.length,
      (explodeList values).get (i.cast (by simp [explodeList])) =
        if values.get i = pyMax values then 5 / 100 else 0) ∧
    ∃ j : Fin values.length, values.get j = pyMax values ∧
      (explodeList values).get (j.cast (by simp [explodeList])) = 5 / 100 := by
  constructor
  · intro i
    simp [explodeList]
  · obtain ⟨j, hj⟩ := List.mem_iff_get.mp (pyMax_mem h)
    refine ⟨j, hj, ?_⟩
    have hj2 : values[(j : ℕ)] = pyMax values := hj
    simp [explodeList, hj2]

/-- C2 witness: for `[3, 5]` the second record holds the maximum and is
flagged with offset 0.05. -/
theorem C2_explode_max_witness :
    (explodeList [3, 5]).get ⟨1, by simp [explodeList]⟩ = 5 / 100 := by
  have h := (C2_explode_max [3, 5] (by decide)).1 ⟨1, by decide⟩
  simp only [Fin.cast_mk] at h
  rw [h, if_pos (by decide)]

/-- C6 counterexample: for `n = 5` the closing entry of the angle list is
`angles[0]` itself (0°), appended verbatim by `angles += angles[:1]` — it
is not `angles[0] + 360°` as the claim states. -/
theorem C6_radar_counterexample :
    (radarClosedAngles 5).getD 5 0 = 0 ∧
    (radarClosedAngles 5).getD 5 0 ≠ (radarClosedAngles 5).getD 0 0 + 360 := by
  have h : radarClosedAngles 5 = [0, 72, 144, 216, 288, 0] := by
    norm_num [radarClosedAngles, radarAngles, List.range_succ]
  rw [h]
  norm_num

/-- C6 (amended): for a radar dataset of `n ≥ 1` categories the angular
positions are `360 * i / n` degrees (i.e. `2π i / n`) for `i ∈ [0, n)` in
insertion order, and the polygon is closed by appending the first point
once more: entry `n` of the closed angle list is `angles[0]` verbatim
(0°, the same direction as `angles[0] + 360°` but not that number), and
entry `n` of the closed value list is `values[0]`. -/
theorem C6_radar_angles (n : ℕ) (values : List ℚ) (h1 : 1 ≤ n)
    (hlen : values.length = n) :
    (radarAngles n).length = n ∧
    (∀ i, i < n → (radarAngles n).getD i 0 = 360 * i / n) ∧
    (radarClosedAngles n).length = n + 1 ∧
    (radarClosedAngles n).getD n 0 = (radarAngles n).getD 0 0 ∧
    (radarClosedAngles n).getD n 0 = 0 ∧
    (radarClosedValues values).length = n + 1 ∧
    (radarClosedValues values).getD n 0 = values.getD 0 0 := by
  have hlen0 : (radarAngles n).length = n := by simp [radarAngles]
  have htake : ((radarAngles n).take 1).length = 1 := by
    simp [hlen0]
    omega
  have hvtake : (values.take 1).length = 1 := by
    simp [hlen, h1]
  refine ⟨hlen0, ?_, ?_, ?_, ?_, ?_, ?_⟩
  · intro i hi
    rw [radarAngles, getD_map_range _ _ _ _ hi]
  · simp [radarClosedAngles, hlen0, htake]
  · rw [radarClosedAngles, List.getD_append_right _ _ _ _ (by omega),
      hlen0, Nat.sub_self]
    rw [List.getD_eq_getElem?_getD, List.getElem?_take_of_lt (by omega),
      ← List.getD_eq_getElem?_getD]
  · rw [radarClosedAngles, List.getD_append_right _ _ _ _ (by omega),
      hlen0, Nat.sub_self]
    rw [List.getD_eq_getElem?_getD, List.getElem?_take_of_lt (by omega),
      ← List.getD_eq_getElem?_getD]
    rw [radarAngles, getD_map_range _ _ _ _ (by omega)]
    simp
  · simp [radarClosedValues, hlen, hvtake]
  · rw [radarClosedValues, List.getD_append_right _ _ _ _ (by omega),
      hlen, Nat.sub_self]
    rw [List.getD_eq_getElem?_getD, List.getElem?_take_of_lt (by omega),
      ← List.getD_eq_getElem?_getD]

/-- C6 witness: for `n = 5` the angles are 0°, 72°, 144°, 216°, 288° in
insertion order, and the closed polygon repeats the first point. -/
theorem C6_radar_angles_witness :
    (radarAngles 5).getD 1 0 = 72 ∧
    (radarClosedAngles 5).getD 5 0 = 0 ∧
    (radarClosedValues [10, 20, 30, 40, 50]).getD 5 0 = 10 := by
  have h := C6_radar_angles 5 [10, 20, 30, 40, 50] (by decide) (by decide)
  refine ⟨?_, h.2.2.2.2.1, ?_⟩
  · rw [h.2.1 1 (by decide)]
    norm_num
  · rw [h.2.2.2.2.2.2]
    decide

theorem cardColor_eq (scheme : ColorScheme) (i : ℕ) :
    cardColor scheme i = if i % 2 = 0 then scheme.primary else scheme.accent := by
  rcases Nat.mod_two_eq_zero_or_one i with h | h <;> simp [cardColor, h]

/-- C8: the big-number grid packing depends on `n` alone — `n ≤ 2` gives
one row of `n` columns, `3 ≤ n ≤ 4` gives a 2×2 grid, `n ≥ 5` gives 3
columns and `⌈n/3⌉` rows (characterised by `3·(rows-1) < n ≤ 3·rows`);
card `i` is visible with primary fill for even flat index and accent for
odd, independent of row/column; and the `rows·cols - n` trailing cells are
allocated but hidden. -/
theorem C8_big_number_grid (n : ℕ) (h1 : 1 ≤ n) (scheme : ColorScheme) :
    (n ≤ 2 → gridDims n = (n, 1)) ∧
    (3 ≤ n → n ≤ 4 → gridDims n = (2, 2)) ∧
    (5 ≤ n → (gridDims n).1 = 3 ∧
      n ≤ 3 * (gridDims n).2 ∧ 3 * ((gridDims n).2 - 1) < n) ∧
    n ≤ (gridDims n).2 * (gridDims n).1 ∧
    (bigNumberCards n scheme).length = (gridDims n).2 * (gridDims n).1 ∧
    (∀ i, i < n →
      (bigNumberCards n scheme).getD i ⟨0, true, none⟩ =
        ⟨i, false, some (if i % 2 = 0 then scheme.primary else scheme.accent)⟩) ∧
    (∀ i, n ≤ i → i < (gridDims n).2 * (gridDims n).1 →
      (bigNumberCards n scheme).getD i ⟨0, true, none⟩ = ⟨i, true, none⟩) := by
  have hcard : ∀ i, i < (gridDims n).2 * (gridDims n).1 →
      (bigNumberCards n scheme).getD i ⟨0, true, none⟩ =
        if i < n then ⟨i, false, some (cardColor scheme i)⟩
        else ⟨i, true, none⟩ := by
    intro i hi
    rw [bigNumberCards, getD_map_range _ _ _ _ hi]
  have hn_le : n ≤ (gridDims n).2 * (gridDims n).1 := by
    rw [gridDims]
    split_ifs <;> simp <;> omega
  refine ⟨?_, ?_, ?_, hn_le, by simp [bigNumberCards], ?_, ?_⟩
  · intro h
    rw [gridDims, if_pos h]
  · intro h3 h4
    rw [gridDims, if_neg (by omega), if_pos h4]
  · intro h5
    rw [gridDims, if_neg (by omega), if_neg (by omega)]
    exact ⟨rfl, by omega, by omega⟩
  · intro i hi
    rw [hcard i (by omega), if_pos hi, cardColor_eq]
  · intro i hni hi
    rw [hcard i hi, if_neg (by omega)]

/-- C8 witness: for `n = 5` the grid is 3 columns × 2 rows and cell 5 is
hidden; for `n = 3` the grid is 2×2 and cell 3 is hidden; colors alternate
primary/accent by flat index. -/
theorem C8_big_number_grid_witness :
    gridDims 5 = (3, 2) ∧
    (bigNumberCards 5
      ⟨"科技蓝", ["#4A90E2", "#5B7FCE", "#6D6FBB", "#7E5FA8"], "#4A90E2",
        "#FF6B6B", none, none, "#2C3E50", "#7F8C8D", "#ECF0F1"⟩).getD 5
      ⟨0, true, none⟩ = ⟨5, true, none⟩ ∧
    gridDims 3 = (2, 2) ∧
    (bigNumberCards 3
      ⟨"科技蓝", ["#4A90E2", "#5B7FCE", "#6D6FBB", "#7E5FA8"], "#4A90E2",
        "#FF6B6B", none, none, "#2C3E50", "#7F8C8D", "#ECF0F1"⟩).getD 3
      ⟨0, true, none⟩ = ⟨3, true, none⟩ ∧
    (bigNumberCards 3
      ⟨"科技蓝", ["#4A90E2", "#5B7FCE", "#6D6FBB", "#7E5FA8"], "#4A90E2",
        "#FF6B6B", none, none, "#2C3E50", "#7F8C8D", "#ECF0F1"⟩).getD 1
      ⟨0, true, none⟩ = ⟨1, false, some "#FF6B6B"⟩ := by
  have h5 := C8_big_number_grid 5 (by decide)
    ⟨"科技蓝", ["#4A90E2", "#5B7FCE", "#6D6FBB", "#7E5FA8"], "#4A90E2",
      "#FF6B6B", none, none, "#2C3E50", "#7F8C8D", "#ECF0F1"⟩
  have h3 := C8_big_number_grid 3 (by decide)
    ⟨"科技蓝", ["#4A90E2", "#5B7FCE", "#6D6FBB", "#7E5FA8"], "#4A90E2",
      "#FF6B6B", none, none, "#2C3E50", "#7F8C8D", "#ECF0F1"⟩
  refine ⟨by decide, ?_, by decide, ?_, ?_⟩
  · exact h5.2.2.2.2.2.2 5 (by decide) (by decide)
  · exact h3.2.2.2.2.2.2 3 (by decide) (by decide)
  · have := h3.2.2.2.2.2.1 1 (by decide)
    simpa using this

theorem parsePairItem_ok_fields {item : String} {b : String × ℚ}
    (h : parsePairItem item = .ok b) : (pySplit ':' item).length = 2 := by
  unfold parsePairItem at h
  rcases hsp : pySplit ':' item with _ | ⟨c, _ | ⟨v, _ | ⟨w, rest⟩⟩⟩ <;>
    rw [hsp] at h
  · exact absurd h (by simp)
  · exact absurd h (by simp)
  · rfl
  · exact absurd h (by simp)

theorem parsePairItem_short_error {item : String}
    (hlen : (pySplit ':' item).length < 2) :
    parsePairItem item = .error .MalformedRecord := by
  unfold parsePairItem
  rcases hsp : pySplit ':' item with _ | ⟨c, _ | ⟨v, rest⟩⟩
  · rfl
  · rfl
  · exact absurd hlen (by rw [hsp]; simp)

/-- C10: in pair mode (raw string containing a colon) `parse_data` succeeds
only when every comma-separated record has exactly two colon-separated
fields; a record with more fields, such as `"A:10:20"`, makes the
two-variable unpacking fail, modelled as `DataError.MalformedRecord` —
even though the published grammar admits three-field records. -/
theorem C10_pair_mode_exact_fields (s : String)
    (hc : s.data.contains ':' = true)
    (r : List String × List ℚ) (hok : parse_data s = .ok r) :
    (∀ item ∈ pySplit ',' s, (pySplit ':' item).length = 2) ∧
    parse_data "A:10:20" = .error .MalformedRecord := by
  constructor
  · intro item hmem
    rw [parse_data, if_pos hc] at hok
    cases hm : mapExcept parsePairItem (pySplit ',' s) with
    | error e => rw [hm] at hok; exact absurd hok (by simp)
    | ok pairs =>
      obtain ⟨b, hb⟩ := mapExcept_ok_forall_mem hm item hmem
      exact parsePairItem_ok_fields hb
  · decide

/-- C10 witness: `"A:10"` parses successfully in pair mode, and its single
record indeed has exactly two fields. -/
theorem C10_pair_mode_exact_fields_witness :
    (pySplit ':' "A:10").length = 2 ∧
    parse_data "A:10:20" = .error .MalformedRecord := by
  have h := C10_pair_mode_exact_fields "A:10" (by decide) (["A"], [10])
    (by decide)
  exact ⟨h.1 "A:10" (by decide), h.2⟩

theorem length_filterMap_eq {α β : Type} (f : α → Option β) (p : α → Bool)
    (hp : ∀ a, (f a).isSome = p a) (l : List α) :
    (l.filterMap f).length = (l.filter p).length := by
  induction l with
  | nil => rfl
  | cons x xs ih =>
    have hx := hp x
    cases hf : f x <;> rw [hf] at hx <;>
      simp [List.filterMap_cons, List.filter_cons, hf, ← hx, ih]

/-- C1 counterexample: in triple mode the record `"B"` has a single
colon-separated field — fewer than the three the shape requires — yet
`parse_metrics_data` does not fail: it silently drops the record and
returns a dataset built from the remaining records (and `"A:10,B"` yields
the empty dataset, again without any error). -/
theorem C1_counterexample :
    (pySplit ':' "B").length = 1 ∧
    parse_metrics_data "X:1:2,B" = [⟨"X", "1", "2"⟩] ∧
    parse_metrics_data "A:10,B" = [] := by decide

/-- C1 (amended): in pair mode (raw string containing a colon), a record
with fewer than two colon-separated fields makes `parse_data` fail and
return no dataset — on `"A:10,B"` specifically with
`DataError.MalformedRecord` — whereas the triple-mode
`parse_metrics_data` never fails on short records: it silently skips every
record with fewer than three fields, returning exactly the well-formed
ones. -/
theorem C1_parse_shape_errors (s : String)
    (hc : s.data.contains ':' = true)
    (hbad : ∃ item ∈ pySplit ',' s, (pySplit ':' item).length < 2) :
    (∃ e, parse_data s = .error e) ∧
    parse_data "A:10,B" = .error .MalformedRecord ∧
    (∀ t : String, (parse_metrics_data t).length =
      ((pySplit ',' t).filter fun item => 3 ≤ (pySplit ':' item).length).length) := by
  refine ⟨?_, by decide, ?_⟩
  · obtain ⟨item, hmem, hlen⟩ := hbad
    have herr : ∀ b, parsePairItem item ≠ .ok b := by
      intro b
      rw [parsePairItem_short_error hlen]
      simp
    obtain ⟨e, he⟩ := mapExcept_error_of_mem hmem herr
    refine ⟨e, ?_⟩
    rw [parse_data, if_pos hc, he]
  · intro t
    unfold parse_metrics_data
    refine length_filterMap_eq _ _ ?_ _
    intro item
    rcases pySplit ':' item with _ | ⟨p0, _ | ⟨p1, _ | ⟨p2, rest⟩⟩⟩ <;> simp

/-- C1 witness: `"A:10,B"` (second record missing a field) fails in pair
mode with `MalformedRecord`, while in triple mode the same input produces
the empty dataset without failing. -/
theorem C1_parse_shape_errors_witness :
    parse_data "A:10,B" = .error .MalformedRecord ∧
    (parse_metrics_data "A:10,B").length = 0 := by
  have h := C1_parse_shape_errors "A:10,B" (by decide)
    ⟨"B", by decide, by decide⟩
  refine ⟨h.2.1, ?_⟩
  rw [h.2.2 "A:10,B"]
  decide

/-- C9 counterexample: the no-colon input `"85,92"` parses, but the
synthesized labels are `"项目1", "项目2"` (the tool's Chinese word for
"item"), not the literal `"Item 1", "Item 2"` the claim writes. -/
theorem C9_counterexample :
    parse_data "85,92" = .ok (["项目1", "项目2"], [85, 92]) ∧
    "项目1" ≠ "Item 1" := by decide

/-- C9 (amended): for every input string containing no colon whose
comma-separated records all parse as numbers, `parse_data` succeeds with a
dataset of exactly one value per record, in input order, and auto-labels
the `i`-th value `"项目{i+1}"` (1-based; `项目` = item) — the shape of the
claim's `"Item {1-based index}"` labels, with the Chinese prefix the code
actually uses. -/
theorem C9_bare_numbers (s : String) (hc : s.data.contains ':' = false)
    (hnum : ∀ item ∈ pySplit ',' s, ∃ v, parseFloat? (pyStrip item) = some v) :
    ∃ vals : List ℚ,
      parse_data s =
        .ok ((List.range vals.length).map (fun i => "项目" ++ toString (i + 1)),
          vals) ∧
      vals.length = (pySplit ',' s).length ∧
      List.Forall₂ (fun item v => parseFloat? (pyStrip item) = some v)
        (pySplit ',' s) vals := by
  have h2 : ∀ item ∈ pySplit ',' s, ∃ b, parseBareItem item = .ok b := by
    intro item hm
    obtain ⟨v, hv⟩ := hnum item hm
    exact ⟨v, by simp [parseBareItem, hv]⟩
  obtain ⟨vals, hvals⟩ := mapExcept_ok_of_forall h2
  refine ⟨vals, ?_, mapExcept_ok_length hvals, ?_⟩
  · rw [parse_data, if_neg (by rw [hc]; exact Bool.false_ne_true), hvals]
  · refine (mapExcept_ok_iff.mp hvals).imp ?_
    intro a b hab
    unfold parseBareItem at hab
    cases hf : parseFloat? (pyStrip a) <;> rw [hf] at hab
    · exact absurd hab (by simp)
    · injection hab with h
      rw [h]

/-- C9 witness: `"85,92"` contains no colon, both records parse as
numbers, and the parsed dataset has one auto-labelled value per record in
input order. -/
theorem C9_bare_numbers_witness :
    parse_data "85,92" = .ok (["项目1", "项目2"], [85, 92]) := by
  have hsp : pySplit ',' "85,92" = ["85", "92"] := by decide
  have hnum : ∀ item ∈ pySplit ',' "85,92",
      ∃ v, parseFloat? (pyStrip item) = some v := by
    intro item h
    rw [hsp] at h
    rcases List.mem_cons.mp h with rfl | h2
    · exact ⟨85, by decide⟩
    rcases List.mem_cons.mp h2 with rfl | h3
    · exact ⟨92, by decide⟩
    cases h3
  obtain ⟨vals, h1, hlen, h3⟩ := C9_bare_numbers "85,92" (by decide) hnum
  rw [hsp] at h3
  rcases h3 with _ | ⟨h85, h3⟩
  rcases h3 with _ | ⟨h92, h3⟩
  cases h3
  have e85 := ((by decide : parseFloat? (pyStrip "85") =
    some 85).symm.trans h85)
  have e92 := ((by decide : parseFloat? (pyStrip "92") =
    some 92).symm.trans h92)
  injection e85 with e85v
  injection e92 with e92v
  subst e85v
  subst e92v
  rw [h1]
  decide

theorem sum_map_sweep (l : List ℚ) (c : ℚ) :
    (l.map fun v => 360 * v / c).sum = 360 * l.sum / c := by
  induction l with
  | nil => simp
  | cons x xs ih =>
    simp only [List.map_cons, List.sum_cons, ih]
    ring

/-- C7: in the pie/donut layout each record's arc sweep is
`360° · value / sum(values)`; the arcs are laid out consecutively from the
fixed start angle 90° in dataset insertion order (wedge `i+1` starts where
wedge `i` ends, never re-sorted); and the sweeps sum to 360° (exactly, so
within the claim's 1e-6° tolerance). -/
theorem C7_pie_arcs (values : List ℚ) (hne : values ≠ [])
    (hpos : ∀ v ∈ values, 0 < v) :
    (pieSweeps values).length = values.length ∧
    (∀ i, i < values.length →
      (pieSweeps values).getD i 0 = 360 * values.getD i 0 / values.sum) ∧
    pieStartAngle values 0 = 90 ∧
    (∀ i, i < values.length →
      pieStartAngle values (i + 1) =
        pieStartAngle values i + (pieSweeps values).getD i 0) ∧
    |(pieSweeps values).sum - 360| ≤ 1 / 1000000 := by
  have hS : 0 < values.sum := List.sum_pos values hpos hne
  have hS0 : values.sum ≠ 0 := ne_of_gt hS
  refine ⟨by simp [pieSweeps], ?_, ?_, ?_, ?_⟩
  · intro i hi
    rw [pieSweeps, getD_map_in _ _ _ hi 0 0]
  · simp [pieStartAngle]
  · intro i hi
    have hgd : values.getD i 0 = values[i] := by
      rw [List.getD_eq_getElem?_getD, List.getElem?_eq_getElem hi]
      rfl
    rw [pieSweeps, getD_map_in _ _ _ hi 0 0, pieStartAngle, pieStartAngle,
      List.sum_take_succ _ _ hi, hgd]
    field_simp
    ring
  · rw [pieSweeps, sum_map_sweep, mul_div_assoc, div_self hS0, mul_one]
    norm_num

/-- C7 witness: for the dataset `[1, 2, 3]` the first wedge starts at 90°,
wedge 1 spans `360 · 2 / 6 = 120°`, consecutive wedges abut, and the
sweeps sum to 360°. -/
theorem C7_pie_arcs_witness :
    (pieSweeps [1, 2, 3]).getD 1 0 = 120 ∧
    pieStartAngle [1, 2, 3] 0 = 90 ∧
    pieStartAngle [1, 2, 3] 2 =
      pieStartAngle [1, 2, 3] 1 + (pieSweeps [1, 2, 3]).getD 1 0 ∧
    |(pieSweeps [1, 2, 3]).sum - 360| ≤ 1 / 1000000 := by
  have h := C7_pie_arcs [1, 2, 3] (by decide) (by decide)
  refine ⟨?_, h.2.2.1, h.2.2.2.1 1 (by decide), h.2.2.2.2⟩
  rw [h.2.1 1 (by decide)]
  norm_num

/-- C5 counterexample: the three `COLOR_SCHEMES` registries do not assign
identical hex strings to the same key and field — for `gold_blue` the
`gradient` of `generate_chart.py` starts `#1E3A5F` while the `gradient` of
`generate_big_numbers.py` starts `#2C5282` (and has four entries instead
of three). -/
theorem C5_counterexample :
    (chartSchemes "gold_blue").map ColorScheme.gradient =
      some ["#1E3A5F", "#2C5282", "#3A6FA5"] ∧
    (bigNumberSchemes "gold_blue").map ColorScheme.gradient =
      some ["#2C5282", "#D4AF37", "#3A6FA5", "#F4E4C1"] ∧
    (chartSchemes "gold_blue").map ColorScheme.gradient ≠
      (bigNumberSchemes "gold_blue").map ColorScheme.gradient := by decide

/-- C5 (amended): each of the five keys resolves in all three registries to
one fixed scheme, and the scalar fields — name, primary, accent, text,
text_light, background — carry identical hex strings in
`generate_chart.py` and `generate_big_numbers.py` (and the timeline
registry's name/text/text_light agree too); the gradient/colors sequences,
however, differ between the registries for `gold_blue` and `multilayer`,
so only this scalar surface is a shared compatibility contract. -/
theorem C5_scheme_scalar_agreement (k : String) (hk : k ∈ schemeKeys) :
    ∃ c b t, chartSchemes k = some c ∧ bigNumberSchemes k = some b ∧
      timelineSchemes k = some t ∧
      b.name = c.name ∧ b.primary = c.primary ∧ b.accent = c.accent ∧
      b.text = c.text ∧ b.textLight = c.textLight ∧
      b.background = c.background ∧
      t.name = c.name ∧ t.text = c.text ∧ t.textLight = c.textLight := by
  fin_cases hk <;>
    exact ⟨_, _, _, rfl, rfl, rfl, rfl, rfl, rfl, rfl, rfl, rfl, rfl, rfl,
      rfl⟩

/-- C5 witness: for the key `"blue"` the chart and big-number registries
agree on the primary color. -/
theorem C5_scheme_scalar_agreement_witness :
    (chartSchemes "blue").map ColorScheme.primary =
      (bigNumberSchemes "blue").map ColorScheme.primary := by
  obtain ⟨c, b, t, hc, hb, ht, hn, hp, hrest⟩ :=
    C5_scheme_scalar_agreement "blue" (by decide)
  rw [hc, hb]
  simp [hp]

theorem linspace_length (a b : ℚ) (n : ℕ) : (linspace a b n).length = n := by
  rw [linspace]
  split_ifs with h
  · simp [h]
  · simp

theorem linspace_getD (a b : ℚ) (n i : ℕ) (h2 : 2 ≤ n) (hi : i < n) :
    (linspace a b n).getD i 0 = a + (b - a) * (i : ℚ) / ((n : ℚ) - 1) := by
  rw [linspace, if_neg (by omega), getD_map_range _ _ _ _ hi]

theorem getD_zip_in {α β : Type} (l1 : List α) (l2 : List β) (i : ℕ)
    (h1 : i < l1.length) (h2 : i < l2.length) (d1 : α) (d2 : β) :
    (l1.zip l2).getD i (d1, d2) = (l1.getD i d1, l2.getD i d2) := by
  have hz : i < (l1.zip l2).length := by
    rw [List.length_zip]
    omega
  rw [List.getD_eq_getElem?_getD, List.getElem?_eq_getElem hz,
    List.getElem_zip, List.getD_eq_getElem?_getD,
    List.getElem?_eq_getElem h1, List.getD_eq_getElem?_getD,
    List.getElem?_eq_getElem h2]
  rfl

theorem getD_take_in {α : Type} (l : List α) (n i : ℕ) (hi : i < n)
    (d : α) : (l.take n).getD i d = l.getD i d := by
  rw [List.getD_eq_getElem?_getD, List.getElem?_take_of_lt hi,
    ← List.getD_eq_getElem?_getD]

/-- C3 counterexample: with the `blue` timeline scheme (a 4-color palette)
and a 5-record timeline, only 4 nodes are drawn — the `zip` with
`scheme['colors'][:n]` truncates, so record 4 gets no node and no color at
all, instead of the claimed cycled color `colors[4 mod 4]`. -/
theorem C3_counterexample :
    timelineSchemes "blue" =
      some ⟨"科技蓝", ["#4A90E2", "#5B7FCE", "#6D6FBB", "#7E5FA8"],
        "#2C3E50", "#7F8C8D"⟩ ∧
    ([⟨"T1", "a", "x"⟩, ⟨"T2", "b", "y"⟩, ⟨"T3", "c", "z"⟩,
      ⟨"T4", "d", "w"⟩, ⟨"T5", "e", "v"⟩] : List TimelineItem).length = 5 ∧
    (timelineNodes
      [⟨"T1", "a", "x"⟩, ⟨"T2", "b", "y"⟩, ⟨"T3", "c", "z"⟩,
       ⟨"T4", "d", "w"⟩, ⟨"T5", "e", "v"⟩]
      ⟨"科技蓝", ["#4A90E2", "#5B7FCE", "#6D6FBB", "#7E5FA8"],
        "#2C3E50", "#7F8C8D"⟩).length = 4 := by
  refine ⟨by decide, by decide, ?_⟩
  simp [timelineNodes, List.length_zip, linspace_length]

/-- C3 (amended): for a timeline of `n ≥ 2` records, nodes are drawn only
for the first `min n paletteLength` records (the `zip` truncates — colors
are taken by index without cycling, and records beyond the palette are
dropped); drawn node `i` sits at the evenly interpolated x-position
`1.5 + (8.5 - 1.5) · i / (n - 1)` with color `colors[i]`; and the card
width is `(8.5 - 1.5)/n - 0.2` computed from the full `n`. -/
theorem C3_timeline_layout (timeline : List TimelineItem)
    (scheme : TimelineScheme) (h2 : 2 ≤ timeline.length) :
    (timelineNodes timeline scheme).length =
      min timeline.length scheme.colors.length ∧
    (∀ i, i < min timeline.length scheme.colors.length →
      ((timelineNodes timeline scheme).getD i ⟨0, "", ⟨"", "", ""⟩⟩).x =
        3 / 2 + (17 / 2 - 3 / 2) * (i : ℚ) /
          ((timeline.length : ℚ) - 1) ∧
      ((timelineNodes timeline scheme).getD i ⟨0, "", ⟨"", "", ""⟩⟩).color =
        scheme.colors.getD i "" ∧
      ((timelineNodes timeline scheme).getD i ⟨0, "", ⟨"", "", ""⟩⟩).item =
        timeline.getD i ⟨"", "", ""⟩) ∧
    timelineCardWidth timeline.length =
      (17 / 2 - 3 / 2) / (timeline.length : ℚ) - 1 / 5 := by
  have hlen : (timelineNodes timeline scheme).length =
      min timeline.length scheme.colors.length := by
    simp only [timelineNodes, List.length_map, List.length_zip,
      List.length_take, linspace_length]
    omega
  refine ⟨hlen, ?_, rfl⟩
  intro i hi
  have hit : i < timeline.length := by omega
  have hic : i < scheme.colors.length := by omega
  have hzlen : i < ((linspace (3 / 2) (17 / 2) timeline.length).zip
      (timeline.zip (scheme.colors.take timeline.length))).length := by
    simp only [List.length_zip, List.length_take, linspace_length]
    omega
  have hnode : (timelineNodes timeline scheme).getD i ⟨0, "", ⟨"", "", ""⟩⟩ =
      ⟨(linspace (3 / 2) (17 / 2) timeline.length).getD i 0,
        (scheme.colors.take timeline.length).getD i "",
        timeline.getD i ⟨"", "", ""⟩⟩ := by
    simp only [timelineNodes]
    rw [getD_map_in _ _ _ hzlen (0, ⟨"", "", ""⟩, "") _,
      getD_zip_in _ _ _ (by rw [linspace_length]; omega)
        (by rw [List.length_zip, List.length_take]; omega),
      getD_zip_in _ _ _ hit (by rw [List.length_take]; omega)]
  rw [hnode]
  refine ⟨?_, ?_, rfl⟩
  · rw [linspace_getD _ _ _ _ h2 hit]
  · rw [getD_take_in _ _ _ hit]

/-- C3 witness: with the 4-color `blue` palette and a 4-record timeline,
node 1 sits at `1.5 + 7/3` with the palette's second color, and the card
width for `n = 4` is `7/4 - 0.2`. -/
theorem C3_timeline_layout_witness :
    ((timelineNodes
      [⟨"T1", "a", "x"⟩, ⟨"T2", "b", "y"⟩, ⟨"T3", "c", "z"⟩,
       ⟨"T4", "d", "w"⟩]
      ⟨"科技蓝", ["#4A90E2", "#5B7FCE", "#6D6FBB", "#7E5FA8"],
        "#2C3E50", "#7F8C8D"⟩).getD 1 ⟨0, "", ⟨"", "", ""⟩⟩).x =
      3 / 2 + 7 / 3 ∧
    ((timelineNodes
      [⟨"T1", "a", "x"⟩, ⟨"T2", "b", "y"⟩, ⟨"T3", "c", "z"⟩,
       ⟨"T4", "d", "w"⟩]
      ⟨"科技蓝", ["#4A90E2", "#5B7FCE", "#6D6FBB", "#7E5FA8"],
        "#2C3E50", "#7F8C8D"⟩).getD 1 ⟨0, "", ⟨"", "", ""⟩⟩).color =
      "#5B7FCE" ∧
    timelineCardWidth 4 = 7 / 4 - 1 / 5 := by
  have h := C3_timeline_layout
    [⟨"T1", "a", "x"⟩, ⟨"T2", "b", "y"⟩, ⟨"T3", "c", "z"⟩, ⟨"T4", "d", "w"⟩]
    ⟨"科技蓝", ["#4A90E2", "#5B7FCE", "#6D6FBB", "#7E5FA8"],
      "#2C3E50", "#7F8C8D"⟩ (by decide)
  obtain ⟨hx, hc, hitem⟩ := h.2.1 1 (by decide)
  refine ⟨?_, ?_, ?_⟩
  · rw [hx]
    norm_num
  · rw [hc]
    decide
  · have h22 := h.2.2
    norm_num at h22 ⊢
    exact h22

end AIPPT
